import Mathlib

/-!
# KinZ-Python: buffer descriptors, binding defaults and the coordinate-mapping contract

The first part embeds `src/pybinder.cpp` (the four `def_buffer` descriptors and the
default arguments of the `Kinect` bindings) and the declarations of `src/kinect.h`.
The second part models the components whose implementation is not part of the
sources at hand (projection, point-cloud generation, batch mapping, export).
-/

set_option linter.dupNamespace false

namespace KinZ

/-! ## Buffer descriptors (`src/pybinder.cpp`, lines 11-62) -/

/-- Element types named by the descriptors through `py::format_descriptor<T>::format()`. -/
inductive ScalarType
  | uint8_t
  | uint16_t
  | int16_t
  deriving DecidableEq

/-- Value of `sizeof(T)` in bytes. -/
def ScalarType.sizeof : ScalarType → Nat
  | .uint8_t => 1
  | .uint16_t => 2
  | .int16_t => 2

/-- Whether the element type is a signed integer type. -/
def ScalarType.isSigned : ScalarType → Bool
  | .uint8_t => false
  | .uint16_t => false
  | .int16_t => true

/-- Value of `sizeof(unsigned char)`. -/
def sizeof_unsigned_char : Nat := 1

/-- The record `py::buffer_info(ptr, itemsize, format, ndim, shape, strides)`;
the data pointer is the base address and every offset below is relative to it. -/
structure buffer_info where
  itemsize : Nat
  format : ScalarType
  ndim : Nat
  shape : List Nat
  strides : List Nat
  deriving DecidableEq

/-- Byte offset of the item at a multi-index: the sum of index times stride per axis
(the addressing rule of the buffer protocol). -/
def buffer_info.offset (b : buffer_info) (idx : List Nat) : Nat :=
  (List.zipWith (fun i s => i * s) idx b.strides).sum

/-- A multi-index is in range when it has one entry per axis, each below the extent. -/
def buffer_info.inRange (b : buffer_info) (idx : List Nat) : Bool :=
  idx.length == b.shape.length && (List.zipWith (fun i n => decide (i < n)) idx b.shape).all id

/-- Number of items described by the shape. -/
def buffer_info.numItems (b : buffer_info) : Nat := b.shape.prod

/-- Accessors of `BufferDepth` used by its descriptor (the class itself is declared in
`utils.h`, which is not among the sources; the accessor values are taken as given). -/
structure BufferDepth where
  rows : Nat
  cols : Nat
  stride : Nat
  deriving DecidableEq

/-- Accessors of `BufferColor` (declared in `utils.h`; values taken as given). -/
structure BufferColor where
  rows : Nat
  cols : Nat
  stride : Nat
  deriving DecidableEq

/-- Accessors of `BufferBodyIndex` (declared in `utils.h`; values taken as given). -/
structure BufferBodyIndex where
  rows : Nat
  cols : Nat
  stride : Nat
  deriving DecidableEq

/-- Accessors of `BufferPointCloud` (declared in `utils.h`; values taken as given). -/
structure BufferPointCloud where
  rows : Nat
  cols : Nat
  stride : Nat
  deriving DecidableEq

/-- Descriptor of `BufferDepth` (`pybinder.cpp` lines 11-21). -/
def BufferDepth.def_buffer (m : BufferDepth) : buffer_info :=
  { itemsize := ScalarType.uint16_t.sizeof
    format := ScalarType.uint16_t
    ndim := 2
    shape := [m.rows, m.cols]
    strides := [m.stride, ScalarType.uint16_t.sizeof] }

/-- Descriptor of `BufferColor` (`pybinder.cpp` lines 23-35). -/
def BufferColor.def_buffer (m : BufferColor) : buffer_info :=
  { itemsize := ScalarType.uint8_t.sizeof
    format := ScalarType.uint8_t
    ndim := 3
    shape := [m.rows, m.cols, 4]
    strides := [sizeof_unsigned_char * 4 * m.cols, sizeof_unsigned_char * 4,
                sizeof_unsigned_char] }

/-- Descriptor of `BufferBodyIndex` (`pybinder.cpp` lines 37-47). -/
def BufferBodyIndex.def_buffer (m : BufferBodyIndex) : buffer_info :=
  { itemsize := ScalarType.uint8_t.sizeof
    format := ScalarType.uint8_t
    ndim := 2
    shape := [m.rows, m.cols]
    strides := [m.stride, ScalarType.uint8_t.sizeof] }

/-- Descriptor of `BufferPointCloud` (`pybinder.cpp` lines 49-62). -/
def BufferPointCloud.def_buffer (m : BufferPointCloud) : buffer_info :=
  { itemsize := ScalarType.int16_t.sizeof
    format := ScalarType.int16_t
    ndim := 3
    shape := [m.rows, m.cols, 3]
    strides := [m.stride, ScalarType.int16_t.sizeof * 3, ScalarType.int16_t.sizeof] }

/-- Two byte ranges `[a, a + n)` and `[b, b + n)` do not overlap. -/
def disjointItems (n a b : Nat) : Prop := a + n ≤ b ∨ b + n ≤ a

instance disjointItems.decidable (n a b : Nat) : Decidable (disjointItems n a b) := by
  unfold disjointItems; infer_instance

/-! ## Default arguments (`src/kinect.h` lines 76-86, `src/pybinder.cpp` lines 110-122) -/

/-- A default argument as written in the source text. -/
inductive DefaultValue
  | int (n : Int)
  | bool (b : Bool)
  | string (s : String)
  deriving DecidableEq

/-- A parameter together with its default argument. -/
structure Parameter where
  name : String
  value : DefaultValue
  deriving DecidableEq

/-- Constructor declaration `Kinect(...)` of `kinect.h`, lines 76-80. -/
def Kinect.Kinect : List Parameter :=
  [ ⟨"deviceIndex", .int 0⟩, ⟨"resolution", .int 1080⟩, ⟨"wfov", .bool false⟩,
    ⟨"binned", .bool true⟩, ⟨"framerate", .int 30⟩, ⟨"sensorColor", .bool true⟩,
    ⟨"sensorDepth", .bool true⟩, ⟨"sensorIR", .bool true⟩,
    ⟨"imuSensors", .bool false⟩, ⟨"bodyTracking", .bool false⟩,
    ⟨"bodyIndex", .bool false⟩ ]

/-- Declaration `getFrames(...)` of `kinect.h`, lines 84-86. -/
def Kinect.getFrames : List Parameter :=
  [ ⟨"getColor", .bool true⟩, ⟨"getDepth", .bool true⟩, ⟨"getIR", .bool true⟩,
    ⟨"getSensors", .bool false⟩, ⟨"getBody", .bool false⟩,
    ⟨"getBodyIndex", .bool false⟩ ]

/-- Arguments of the `py::init<...>` binding of `pybinder.cpp`, lines 111-117. -/
def kinz.Kinect.init : List Parameter :=
  [ ⟨"deviceIndex", .int 0⟩, ⟨"resolution", .int 1080⟩, ⟨"wfov", .bool false⟩,
    ⟨"binned", .bool true⟩, ⟨"framerate", .int 30⟩, ⟨"sensor_color", .bool true⟩,
    ⟨"sensor_depth", .bool true⟩, ⟨"sensor_ir", .bool true⟩,
    ⟨"imu_sensors", .bool false⟩, ⟨"body_tracking", .bool false⟩,
    ⟨"body_index", .bool false⟩, ⟨"sync_mode", .string "none"⟩,
    ⟨"sync_capture_delay", .int 0⟩ ]

/-- Arguments of the `get_frames` binding of `pybinder.cpp`, lines 118-122. -/
def kinz.Kinect.get_frames : List Parameter :=
  [ ⟨"get_color", .bool true⟩, ⟨"get_depth", .bool true⟩,
    ⟨"get_ir", .bool true⟩, ⟨"get_sensors", .bool false⟩,
    ⟨"get_body", .bool false⟩, ⟨"get_body_index", .bool false⟩,
    ⟨"align_depth", .bool false⟩ ]

/-- Argument values of a call that passes no argument: every default, in order. -/
def noArgCall (ps : List Parameter) : List DefaultValue := ps.map Parameter.value

/-- Default of the parameter at a position, when there is one. -/
def defaultAt (ps : List Parameter) (i : Nat) : Option DefaultValue :=
  ps[i]?.map Parameter.value

/-! ## Data model of the transformation core

The implementation file of the class `Kinect` and the headers `utils.h` and
`calibration.h` are not among the sources; what follows is written from the
specification of the transformation core. -/

/-- Modelled from the spec: the two calibrated sensors (the calibration types of the
vendor header, which is not among the sources). -/
inductive Sensor
  | depth
  | color
  deriving DecidableEq

/-- Modelled from the spec: `PixelCoord`, an integer pixel position in a sensor's image
(in the sources only the element type `std::vector<int>` of the batch arguments shows). -/
structure PixelCoord where
  x : Int
  y : Int
  deriving DecidableEq

/-- Modelled from the spec: the valid range of a pixel is `[0, width) × [0, height)`. -/
def PixelCoord.inBounds (width height : Nat) (p : PixelCoord) : Bool :=
  decide (0 ≤ p.x) && decide (p.x < width) && decide (0 ≤ p.y) && decide (p.y < height)

/-- Modelled from the spec: `Point3D`, signed integer millimetres. -/
structure Point3D where
  x : Int
  y : Int
  z : Int
  deriving DecidableEq

/-- Modelled from the spec: the sentinel marking an unprojectable point; of the two
encodings the specification allows, the all-zero one is taken (the point cloud is a
dense buffer of three integers per point, with no room for a flag). -/
def Point3D.invalid : Point3D := ⟨0, 0, 0⟩

/-- Modelled from the spec: a point is valid when it is not the sentinel. -/
def Point3D.isValid (p : Point3D) : Bool := decide (p ≠ Point3D.invalid)

/-- Modelled from the spec: `DepthFrame`, a dense row-major grid of depth samples in
millimetres (16-bit unsigned). -/
structure DepthFrame where
  width : Nat
  height : Nat
  data : List Nat

/-- Modelled from the spec: depth sample at a grid position of the dense row-major
frame (0 where the buffer holds no sample). -/
def DepthFrame.sample (f : DepthFrame) (row col : Nat) : Nat :=
  f.data.getD (row * f.width + col) 0

/-- Modelled from the spec: `PointCloud`, a dense row-major grid of `Point3D`. -/
structure PointCloud where
  width : Nat
  height : Nat
  points : List Point3D

/-- Modelled from the spec: point stored at a grid position of the dense row-major
cloud, when the position is inside the grid. -/
def PointCloud.point (pc : PointCloud) (row col : Nat) : Option Point3D :=
  if col < pc.width then pc.points[row * pc.width + col]? else none

/-! ## Projection Engine and Point Cloud Generator (specification sections 4.2, 4.5) -/

/-- Modelled from the spec: what the Projection Engine and the Cross-Sensor Transform
take from the Calibration Store. The image extents are data; the camera arithmetic
itself (intrinsics, distortion and its inversion, extrinsic rotation and translation,
all in floating point inside the vendor library) is given neither by the sources nor
by the specification and enters as three functions on integer data. -/
structure CameraModel where
  width : Sensor → Nat
  height : Sensor → Nat
  backproject : Sensor → PixelCoord → Nat → Point3D
  forward : Sensor → Point3D → PixelCoord
  extrinsic : Sensor → Sensor → Point3D → Point3D

/-- Modelled from the spec: `unproject(pixel, depthMM, sensor)` of the Projection
Engine, whose code is not among the sources; returns the invalid sentinel when
`depthMM == 0`, otherwise the back-projection of the pixel. -/
def unproject (M : CameraModel) (pixel : PixelCoord) (depthMM : Nat) (S : Sensor) : Point3D :=
  if depthMM = 0 then Point3D.invalid else M.backproject S pixel depthMM

/-- Modelled from the spec: `project(point, sensor)` of the Projection Engine, whose
code is not among the sources; unmapped (`none`) when the point has a non-positive
depth component or the projected pixel is outside the image. -/
def project (M : CameraModel) (point : Point3D) (S : Sensor) : Option PixelCoord :=
  if point.z ≤ 0 then none
  else
    let q := M.forward S point
    if q.inBounds (M.width S) (M.height S) then some q else none

/-- Modelled from the spec: `generate(depthFrame)` of the Point Cloud Generator (the
body of `Kinect::depth_image_to_point_cloud` is not among the sources); one point per
depth pixel, in raster order, each the unprojection of that pixel with its own sample. -/
def generate (M : CameraModel) (depthFrame : DepthFrame) : PointCloud :=
  { width := depthFrame.width
    height := depthFrame.height
    points := (List.range (depthFrame.width * depthFrame.height)).map fun i =>
      unproject M ⟨((i % depthFrame.width : Nat) : Int), ((i / depthFrame.width : Nat) : Int)⟩
        (depthFrame.data.getD i 0) Sensor.depth }

/-! ## Coordinate Mapper (specification section 4.4) -/

/-- Modelled from the spec: the structural error of a batch call (no error type shows
in the sources). -/
inductive MapperError
  | InvalidInputError
  deriving DecidableEq

/-- Modelled from the spec: outcome of a batch call: the returned sequence or the
error, together with the number of per-element projections that were computed. -/
structure BatchOutcome (β : Type) where
  result : Except MapperError (List β)
  projections : Nat

/-- Modelled from the spec: second pass of a batch call, one projection per element,
in order, counting them. -/
def processAll {α β : Type} (f : α → β) : List α → List β × Nat
  | [] => ([], 0)
  | x :: xs => (f x :: (processAll f xs).1, (processAll f xs).2 + 1)

/-- Modelled from the spec: the shape shared by the batch operations `map_coords_*`,
whose bodies are not among the sources. The whole input
is validated first and the call fails fast with `InvalidInputError` when an element
is rejected; otherwise every element is mapped, in order, nothing dropped. -/
def mapBatch {α β : Type} (valid : α → Bool) (f : α → β) (xs : List α) : BatchOutcome β :=
  if xs.all valid then
    { result := .ok (processAll f xs).1, projections := (processAll f xs).2 }
  else
    { result := .error MapperError.InvalidInputError, projections := 0 }

/-- Modelled from the spec: what the mapper reads from the current capture: the depth
frame, and the depth sample found under a color pixel (0 when no valid depth exists
there; how it is searched is left open by the specification). -/
structure Capture where
  depthFrame : DepthFrame
  depthUnderColor : PixelCoord → Nat

/-- Modelled from the spec: cross-sensor move of a point, applied only when the two
frames differ. -/
def moveFrame (M : CameraModel) (p : Point3D) (src dst : Sensor) : Point3D :=
  if src = dst then p else M.extrinsic src dst p

/-- Modelled from the spec: the reference frame named by the `depth_reference` flag of
the bindings (`pybinder.cpp` lines 149-160), depth when set and color otherwise. -/
def referenceFrame (depth_reference : Bool) : Sensor :=
  if depth_reference then Sensor.depth else Sensor.color

/-- Modelled from the spec: depth sample used for a pixel of the given sensor. -/
def depthFor (K : Capture) (S : Sensor) (p : PixelCoord) : Nat :=
  match S with
  | .depth => K.depthFrame.sample p.y.toNat p.x.toNat
  | .color => K.depthUnderColor p

/-- Modelled from the spec: one element of `colorToDepthPixels`: unproject with the
depth found under the color pixel, move to the depth frame, project. -/
def colorToDepthPixel (M : CameraModel) (K : Capture) (p : PixelCoord) : Option PixelCoord :=
  let q := unproject M p (depthFor K Sensor.color p) Sensor.color
  if q.isValid then project M (moveFrame M q Sensor.color Sensor.depth) Sensor.depth else none

/-- Modelled from the spec: one element of `depthToColorPixels`: unproject the depth
pixel with its own sample, move to the color frame, project. -/
def depthToColorPixel (M : CameraModel) (K : Capture) (p : PixelCoord) : Option PixelCoord :=
  let q := unproject M p (depthFor K Sensor.depth p) Sensor.depth
  if q.isValid then project M (moveFrame M q Sensor.depth Sensor.color) Sensor.color else none

/-- Modelled from the spec: one element of `pixelTo3D`: unproject in the sensor's
space, then move to the reference frame when it differs. -/
def pixelTo3D (M : CameraModel) (K : Capture) (S ref : Sensor) (p : PixelCoord) : Point3D :=
  let q := unproject M p (depthFor K S p) S
  if q.isValid then moveFrame M q S ref else Point3D.invalid

/-- Modelled from the spec: one element of `threeDToPixel`: move into the sensor's
frame when needed, then project. -/
def threeDToPixel (M : CameraModel) (S ref : Sensor) (p : Point3D) : Option PixelCoord :=
  project M (moveFrame M p ref S) S

/-- Modelled from the spec: `Kinect::map_coords_color_to_depth` (declared in `kinect.h`
line 100, body not among the sources), the operation `colorToDepthPixels`. -/
def map_coords_color_to_depth (M : CameraModel) (K : Capture) (color_coords : List PixelCoord) :
    BatchOutcome (Option PixelCoord) :=
  mapBatch (PixelCoord.inBounds (M.width Sensor.color) (M.height Sensor.color))
    (colorToDepthPixel M K) color_coords

/-- Modelled from the spec: `Kinect::map_coords_depth_to_color` (declared in `kinect.h`
line 102, body not among the sources), the operation `depthToColorPixels`. -/
def map_coords_depth_to_color (M : CameraModel) (K : Capture) (depth_coords : List PixelCoord) :
    BatchOutcome (Option PixelCoord) :=
  mapBatch (PixelCoord.inBounds (M.width Sensor.depth) (M.height Sensor.depth))
    (depthToColorPixel M K) depth_coords

/-- Modelled from the spec: `Kinect::map_coords_color_to_3D` (declared in `kinect.h`
line 101, body not among the sources), the operation `pixelTo3D` on color pixels. -/
def map_coords_color_to_3D (M : CameraModel) (K : Capture) (color_coords : List PixelCoord)
    (depth_reference : Bool) : BatchOutcome Point3D :=
  mapBatch (PixelCoord.inBounds (M.width Sensor.color) (M.height Sensor.color))
    (pixelTo3D M K Sensor.color (referenceFrame depth_reference)) color_coords

/-- Modelled from the spec: `Kinect::map_coords_depth_to_3D` (declared in `kinect.h`
line 103, bound with a `depth_reference` flag in `pybinder.cpp` lines 152-154, body
not among the sources), the operation `pixelTo3D` on depth pixels. -/
def map_coords_depth_to_3D (M : CameraModel) (K : Capture) (depth_coords : List PixelCoord)
    (depth_reference : Bool) : BatchOutcome Point3D :=
  mapBatch (PixelCoord.inBounds (M.width Sensor.depth) (M.height Sensor.depth))
    (pixelTo3D M K Sensor.depth (referenceFrame depth_reference)) depth_coords

/-- Modelled from the spec: `Kinect::map_coords_3d_to_depth` (bound in `pybinder.cpp`
lines 155-157, body not among the sources), the operation `threeDToPixel` into the
depth image; a 3D point has no frame bounds to violate. -/
def map_coords_3d_to_depth (M : CameraModel) (coords3d : List Point3D)
    (depth_reference : Bool) : BatchOutcome (Option PixelCoord) :=
  mapBatch (fun _ => true) (threeDToPixel M Sensor.depth (referenceFrame depth_reference)) coords3d

/-- Modelled from the spec: `Kinect::map_coords_3d_to_color` (bound in `pybinder.cpp`
lines 158-160, body not among the sources), the operation `threeDToPixel` into the
color image. -/
def map_coords_3d_to_color (M : CameraModel) (coords3d : List Point3D)
    (depth_reference : Bool) : BatchOutcome (Option PixelCoord) :=
  mapBatch (fun _ => true) (threeDToPixel M Sensor.color (referenceFrame depth_reference)) coords3d

/-! ## Point-cloud export (specification section 4.5) -/

/-- Modelled from the spec: a color sample paired with a point. -/
structure Rgb where
  r : Nat
  g : Nat
  b : Nat
  deriving DecidableEq

/-- Modelled from the spec: failure of the export. -/
inductive ExportError
  | IOError
  deriving DecidableEq

/-- Modelled from the spec: text of one exported line, `x y z`, or `x y z r g b` when
a color is given. -/
def formatLine (p : Point3D) (c : Option Rgb) : String :=
  let xyz := toString p.x ++ " " ++ toString p.y ++ " " ++ toString p.z
  match c with
  | none => xyz
  | some c => xyz ++ " " ++ toString c.r ++ " " ++ toString c.g ++ " " ++ toString c.b

/-- Modelled from the spec: color paired with the point at grid index `i`, the sample
at the same index (empty color where the color sequence has none). -/
def colorAt (colors : Option (List Rgb)) (i : Nat) : Option Rgb :=
  colors.map fun cs => cs.getD i ⟨0, 0, 0⟩

/-- Modelled from the spec: lines written for the points from grid index `i` on, one
per valid point, in order; an invalid sentinel writes nothing. -/
def exportFrom (colors : Option (List Rgb)) : Nat → List Point3D → List String
  | _, [] => []
  | i, p :: ps =>
    if p.isValid then formatLine p (colorAt colors i) :: exportFrom colors (i + 1) ps
    else exportFrom colors (i + 1) ps

/-- Modelled from the spec: `exportToFile(pointCloud, colors?, path)`, bound as
`save_pointcloud` (the body of `Kinect::savePointCloud` is not among the sources, and
whatever header the file format named by the binding may carry is not described by
the specification and is not part of this model); the value is
the list of lines of the file left at the path, or `IOError` when the write fails
(`writeSucceeds` is the answer of the file system). -/
def exportToFile (writeSucceeds : Bool) (pointCloud : PointCloud) (colors : Option (List Rgb)) :
    Except ExportError (List String) :=
  if writeSucceeds then .ok (exportFrom colors 0 pointCloud.points)
  else .error ExportError.IOError

/-! ## Contracts of a batch operation -/

/-- Length and order preservation of a batch operation `op` whose elements are accepted
by `valid` and mapped by `f`: whatever sequence a call returns has the length of the
input and holds at each index the image of the input element of that index; a call
returns whenever every element is accepted, in particular on the empty input; and
when every element maps to the same marker `u` the result is that marker repeated. -/
def PreservesLength {α β : Type} (valid : α → Bool) (f : α → β)
    (op : List α → BatchOutcome β) : Prop :=
  ∀ xs : List α,
    (∀ ys, (op xs).result = .ok ys → ys.length = xs.length ∧ ∀ i : Nat, ys[i]? = xs[i]?.map f) ∧
    ((∀ x ∈ xs, valid x = true) → ∃ ys, (op xs).result = .ok ys ∧ ys.length = xs.length) ∧
    (xs = [] → (op xs).result = .ok []) ∧
    (∀ u, (∀ x ∈ xs, valid x = true) → (∀ x ∈ xs, f x = u) →
      (op xs).result = .ok (List.replicate xs.length u))

/-- Fail-fast validation of a batch operation `op`: an input holding a rejected element
makes the whole call fail with `InvalidInputError` and no projection is computed; an
input of accepted elements never fails and returns the image of every element under
`f`, the unmappable ones included. -/
def FailsFast {α β : Type} (valid : α → Bool) (f : α → β)
    (op : List α → BatchOutcome β) : Prop :=
  ∀ xs : List α,
    ((∃ x ∈ xs, valid x = false) →
      (op xs).result = .error MapperError.InvalidInputError ∧ (op xs).projections = 0) ∧
    ((∀ x ∈ xs, valid x = true) → (op xs).result = .ok (xs.map f))

/-! ## A concrete sensor pair, used to instantiate the statements -/

/-- A distortion-free camera pair with focal length 4 and principal point `(2, 1)` on
a 4 x 3 image, in integer arithmetic; the color frame is the depth frame shifted by
32 mm along x. -/
def pinholeExample : CameraModel :=
  { width := fun _ => 4
    height := fun _ => 3
    backproject := fun _ p d => ⟨(p.x - 2) * d / 4, (p.y - 1) * d / 4, d⟩
    forward := fun _ q => ⟨4 * q.x / q.z + 2, 4 * q.y / q.z + 1⟩
    extrinsic := fun src _ q =>
      match src with
      | .depth => ⟨q.x - 32, q.y, q.z⟩
      | .color => ⟨q.x + 32, q.y, q.z⟩ }

/-- A 4 x 3 depth frame with zero samples in its first row. -/
def frameExample : DepthFrame :=
  { width := 4, height := 3,
    data := [1000, 0, 0, 1100, 1200, 900, 950, 1000, 1000, 1000, 1010, 1020] }

/-- A capture holding `frameExample`, with no depth found under any color pixel. -/
def captureExample : Capture := { depthFrame := frameExample, depthUnderColor := fun _ => 0 }

/-- A cloud of two valid points and two invalid sentinels. -/
def cloudExample : PointCloud :=
  { width := 2, height := 2, points := [⟨1, 2, 1000⟩, ⟨0, 0, 0⟩, ⟨0, 0, 0⟩, ⟨-5, 7, 900⟩] }

/-! ## Layout lemmas -/

theorem inRange_pair (b : buffer_info) (n0 n1 r c : Nat) (hs : b.shape = [n0, n1]) :
    b.inRange [r, c] = true ↔ r < n0 ∧ c < n1 := by
  simp [buffer_info.inRange, hs]

theorem inRange_triple (b : buffer_info) (n0 n1 n2 r c k : Nat) (hs : b.shape = [n0, n1, n2]) :
    b.inRange [r, c, k] = true ↔ r < n0 ∧ c < n1 ∧ k < n2 := by
  simp [buffer_info.inRange, hs]

/-- Row-major separation: with a row pitch `s` at least as large as a row's payload `w`,
two different (row, in-row offset) pairs whose in-row ranges of `n` bytes fit in the
payload and do not overlap inside a row give non-overlapping byte ranges. -/
theorem rows_disjoint (s w n r r' x x' : Nat) (hs : w ≤ s) (hx : x + n ≤ w) (hx' : x' + n ≤ w)
    (h : r ≠ r' ∨ disjointItems n x x') : disjointItems n (r * s + x) (r' * s + x') := by
  unfold disjointItems at *
  rcases Nat.lt_trichotomy r r' with hlt | heq | hgt
  · left
    have : (r + 1) * s ≤ r' * s := Nat.mul_le_mul_right s hlt
    have e : (r + 1) * s = r * s + s := by ring
    omega
  · subst heq
    rcases h with h | h
    · exact absurd rfl h
    · omega
  · right
    have : (r' + 1) * s ≤ r * s := Nat.mul_le_mul_right s hgt
    have e : (r' + 1) * s = r' * s + s := by ring
    omega


theorem offset_pair (b : buffer_info) (s0 s1 r c : Nat) (hs : b.strides = [s0, s1]) :
    b.offset [r, c] = r * s0 + c * s1 := by
  simp [buffer_info.offset, hs]

theorem offset_triple (b : buffer_info) (s0 s1 s2 r c k : Nat) (hs : b.strides = [s0, s1, s2]) :
    b.offset [r, c, k] = r * s0 + c * s1 + k * s2 := by
  simp [buffer_info.offset, hs, Nat.add_assoc]

/-- The last byte of an in-row range of row `r` lies below the end of the buffer. -/
theorem row_inside (s w rows r x : Nat) (hs : w ≤ s) (hr : r < rows) (hx : x ≤ w) :
    r * s + x ≤ rows * s := by
  have h1 : (r + 1) * s ≤ rows * s := Nat.mul_le_mul_right s hr
  have e : (r + 1) * s = r * s + s := by ring
  omega

/-! ## Buffer layouts -/

/-- C9: the depth buffer is described as a `rows x cols` array of 2-byte unsigned samples
with sample `(r, c)` at byte offset `r*stride + 2*c`; whenever `stride >= 2*cols`, the
2-byte ranges of two distinct in-range positions are disjoint and each lies inside
`[0, rows*stride)`. -/
theorem depth_buffer_layout (m : BufferDepth) :
    m.def_buffer.ndim = 2 ∧ m.def_buffer.shape = [m.rows, m.cols] ∧
    m.def_buffer.itemsize = 2 ∧ m.def_buffer.format = ScalarType.uint16_t ∧
    m.def_buffer.format.isSigned = false ∧
    (∀ r c, m.def_buffer.offset [r, c] = r * m.stride + 2 * c) ∧
    (2 * m.cols ≤ m.stride →
      ∀ r c r' c', m.def_buffer.inRange [r, c] = true → m.def_buffer.inRange [r', c'] = true →
        ((r, c) ≠ (r', c') →
          disjointItems 2 (m.def_buffer.offset [r, c]) (m.def_buffer.offset [r', c'])) ∧
        m.def_buffer.offset [r, c] + 2 ≤ m.rows * m.stride) := by
  have hoff : ∀ r c, m.def_buffer.offset [r, c] = r * m.stride + 2 * c := by
    intro r c
    rw [offset_pair _ m.stride 2 r c rfl]
    omega
  refine ⟨rfl, rfl, rfl, rfl, rfl, hoff, ?_⟩
  intro hs r c r' c' h h'
  rw [inRange_pair _ m.rows m.cols r c rfl] at h
  rw [inRange_pair _ m.rows m.cols r' c' rfl] at h'
  rw [hoff, hoff]
  constructor
  · intro hne
    apply rows_disjoint m.stride (2 * m.cols) 2 r r' (2 * c) (2 * c') hs (by omega) (by omega)
    by_cases hr : r = r'
    · right
      have hc : c ≠ c' := fun hc => hne (by rw [hr, hc])
      unfold disjointItems
      omega
    · exact Or.inl hr
  · have := row_inside m.stride (2 * m.cols) m.rows r (2 * c + 2) hs h.1 (by omega)
    omega

/-- Witness of C9 on a 576 x 640 depth image with a padded row pitch of 1288 bytes:
samples `(0, 639)` and `(1, 0)` do not overlap and `(0, 639)` lies inside the buffer. -/
theorem depth_buffer_layout_witness :
    disjointItems 2 ((BufferDepth.mk 576 640 1288).def_buffer.offset [0, 639])
        ((BufferDepth.mk 576 640 1288).def_buffer.offset [1, 0]) ∧
      (BufferDepth.mk 576 640 1288).def_buffer.offset [0, 639] + 2 ≤ 576 * 1288 :=
  ⟨((depth_buffer_layout (BufferDepth.mk 576 640 1288)).2.2.2.2.2.2 (by decide) 0 639 1 0
      (by decide) (by decide)).1 (by decide),
   ((depth_buffer_layout (BufferDepth.mk 576 640 1288)).2.2.2.2.2.2 (by decide) 0 639 1 0
      (by decide) (by decide)).2⟩

/-- C6: the point cloud is described as a 3-dimensional buffer of shape `(rows, cols, 3)`
of 2-byte signed integers, hence `rows*cols` points of three components, indexed by the
same `(row, col)` pairs as a depth buffer of equal extent; component `k` of point
`(r, c)` is at byte offset `r*stride + 6*c + 2*k`, and whenever `stride >= 6*cols`
distinct in-range indices address disjoint 2-byte items. -/
theorem pointcloud_buffer_layout (m : BufferPointCloud) :
    m.def_buffer.ndim = 3 ∧ m.def_buffer.shape = [m.rows, m.cols, 3] ∧
    m.def_buffer.itemsize = 2 ∧ m.def_buffer.format = ScalarType.int16_t ∧
    m.def_buffer.format.isSigned = true ∧
    m.def_buffer.numItems = (m.rows * m.cols) * 3 ∧
    (∀ d : BufferDepth, d.rows = m.rows → d.cols = m.cols → ∀ r c,
      (d.def_buffer.inRange [r, c] = true ↔ ∀ k, k < 3 → m.def_buffer.inRange [r, c, k] = true)) ∧
    (∀ r c k, m.def_buffer.offset [r, c, k] = r * m.stride + 6 * c + 2 * k) ∧
    (6 * m.cols ≤ m.stride →
      ∀ r c k r' c' k', m.def_buffer.inRange [r, c, k] = true →
        m.def_buffer.inRange [r', c', k'] = true → (r, c, k) ≠ (r', c', k') →
          disjointItems 2 (m.def_buffer.offset [r, c, k]) (m.def_buffer.offset [r', c', k'])) := by
  have hoff : ∀ r c k, m.def_buffer.offset [r, c, k] = r * m.stride + 6 * c + 2 * k := by
    intro r c k
    rw [offset_triple _ m.stride 6 2 r c k rfl]
    omega
  refine ⟨rfl, rfl, rfl, rfl, rfl, ?_, ?_, hoff, ?_⟩
  · simp [buffer_info.numItems, BufferPointCloud.def_buffer, Nat.mul_assoc]
  · intro d hr hc r c
    rw [inRange_pair _ d.rows d.cols r c rfl, hr, hc]
    constructor
    · intro h k hk
      rw [inRange_triple _ m.rows m.cols 3 r c k rfl]
      exact ⟨h.1, h.2, hk⟩
    · intro h
      have h0 := h 0 (by decide)
      rw [inRange_triple _ m.rows m.cols 3 r c 0 rfl] at h0
      exact ⟨h0.1, h0.2.1⟩
  · intro hs r c k r' c' k' h h' hne
    rw [inRange_triple _ m.rows m.cols 3 r c k rfl] at h
    rw [inRange_triple _ m.rows m.cols 3 r' c' k' rfl] at h'
    rw [hoff, hoff, Nat.add_assoc, Nat.add_assoc]
    apply rows_disjoint m.stride (6 * m.cols) 2 r r' (6 * c + 2 * k) (6 * c' + 2 * k') hs
      (by omega) (by omega)
    by_cases hr : r = r'
    · right
      have hck : c ≠ c' ∨ k ≠ k' := by
        by_contra hcon
        push_neg at hcon
        exact hne (by rw [hr, hcon.1, hcon.2])
      unfold disjointItems
      omega
    · exact Or.inl hr

/-- Witness of C6 on a 576 x 640 cloud with a row pitch of 3840 bytes: the last
component of point `(0, 639)` and the first of point `(1, 0)` do not overlap. -/
theorem pointcloud_buffer_layout_witness :
    disjointItems 2 ((BufferPointCloud.mk 576 640 3840).def_buffer.offset [0, 639, 2])
      ((BufferPointCloud.mk 576 640 3840).def_buffer.offset [1, 0, 0]) :=
  (pointcloud_buffer_layout (BufferPointCloud.mk 576 640 3840)).2.2.2.2.2.2.2.2 (by decide)
    0 639 2 1 0 0 (by decide) (by decide) (by decide)

/-- C8: the color buffer is described as a dense row-major `rows x cols x 4` array of
1-byte samples: channel `k` of pixel `(r, c)` is at byte offset `4*cols*r + 4*c + k`;
on in-range indices this map is injective, stays below `4*rows*cols` and reaches every
byte below `4*rows*cols`; the descriptor does not depend on the buffer's stride. -/
theorem color_buffer_layout (m : BufferColor) :
    m.def_buffer.ndim = 3 ∧ m.def_buffer.shape = [m.rows, m.cols, 4] ∧
    m.def_buffer.itemsize = 1 ∧ m.def_buffer.format = ScalarType.uint8_t ∧
    (∀ r c k, m.def_buffer.offset [r, c, k] = 4 * m.cols * r + 4 * c + k) ∧
    (∀ r c k, m.def_buffer.inRange [r, c, k] = true →
      m.def_buffer.offset [r, c, k] < 4 * m.rows * m.cols) ∧
    (∀ r c k r' c' k', m.def_buffer.inRange [r, c, k] = true →
      m.def_buffer.inRange [r', c', k'] = true →
      m.def_buffer.offset [r, c, k] = m.def_buffer.offset [r', c', k'] →
      (r, c, k) = (r', c', k')) ∧
    (∀ b, b < 4 * m.rows * m.cols →
      ∃ r c k, m.def_buffer.inRange [r, c, k] = true ∧ m.def_buffer.offset [r, c, k] = b) ∧
    (∀ s : Nat, (BufferColor.mk m.rows m.cols s).def_buffer = m.def_buffer) := by
  have hoff : ∀ r c k, m.def_buffer.offset [r, c, k] = 4 * m.cols * r + 4 * c + k := by
    intro r c k
    rw [offset_triple _ (4 * m.cols) 4 1 r c k
      (by simp [BufferColor.def_buffer, sizeof_unsigned_char]), Nat.mul_comm r]
    omega
  refine ⟨rfl, rfl, rfl, rfl, hoff, ?_, ?_, ?_, ?_⟩
  · intro r c k h
    rw [inRange_triple _ m.rows m.cols 4 r c k rfl] at h
    rw [hoff]
    have := row_inside (4 * m.cols) (4 * m.cols) m.rows r (4 * c + k + 1) (le_refl _) h.1
      (by omega)
    have e1 : 4 * m.cols * r = r * (4 * m.cols) := Nat.mul_comm _ _
    have e2 : 4 * m.rows * m.cols = m.rows * (4 * m.cols) := by ring
    omega
  · intro r c k r' c' k' h h' heq
    rw [inRange_triple _ m.rows m.cols 4 r c k rfl] at h
    rw [inRange_triple _ m.rows m.cols 4 r' c' k' rfl] at h'
    rw [hoff, hoff] at heq
    by_contra hne
    have hd := rows_disjoint (4 * m.cols) (4 * m.cols) 1 r r' (4 * c + k) (4 * c' + k')
      (le_refl _) (by omega) (by omega) (by
        by_cases hr : r = r'
        · right
          have hck : c ≠ c' ∨ k ≠ k' := by
            by_contra hcon
            push_neg at hcon
            exact hne (by rw [hr, hcon.1, hcon.2])
          unfold disjointItems
          omega
        · exact Or.inl hr)
    have e1 : 4 * m.cols * r = r * (4 * m.cols) := Nat.mul_comm _ _
    have e2 : 4 * m.cols * r' = r' * (4 * m.cols) := Nat.mul_comm _ _
    unfold disjointItems at hd
    omega
  · intro b hb
    have hpos : 0 < 4 * m.cols := by
      rcases Nat.eq_zero_or_pos m.cols with h0 | h0
      · rw [h0] at hb; simp at hb
      · omega
    have hdm : 4 * m.cols * (b / (4 * m.cols)) + b % (4 * m.cols) = b := Nat.div_add_mod b _
    have hlt : b % (4 * m.cols) < 4 * m.cols := Nat.mod_lt b hpos
    have hr : b / (4 * m.cols) < m.rows := by
      rw [Nat.div_lt_iff_lt_mul hpos]
      have e2 : 4 * m.rows * m.cols = m.rows * (4 * m.cols) := by ring
      omega
    refine ⟨b / (4 * m.cols), b % (4 * m.cols) / 4, b % (4 * m.cols) % 4, ?_, ?_⟩
    · rw [inRange_triple _ m.rows m.cols 4 _ _ _ rfl]
      exact ⟨hr, by omega, by omega⟩
    · rw [hoff]
      omega
  · intro s
    rfl

/-- Witness of C8 on a 2 x 3 color image: byte 17 is channel 1 of pixel `(1, 1)`, and
a different stride value gives the same descriptor. -/
theorem color_buffer_layout_witness :
    (BufferColor.mk 2 3 12).def_buffer.offset [1, 1, 1] = 17 ∧
      (BufferColor.mk 2 3 12).def_buffer.offset [1, 1, 1] < 4 * 2 * 3 ∧
      (BufferColor.mk 2 3 64).def_buffer = (BufferColor.mk 2 3 12).def_buffer :=
  ⟨(color_buffer_layout (BufferColor.mk 2 3 12)).2.2.2.2.1 1 1 1,
   (color_buffer_layout (BufferColor.mk 2 3 12)).2.2.2.2.2.1 1 1 1 (by decide),
   (color_buffer_layout (BufferColor.mk 2 3 12)).2.2.2.2.2.2.2.2 64⟩

/-! ## Default arguments -/

/-- C10: the `Kinect` constructor of `kinect.h` declares 11 parameters with defaults
`0, 1080, false, true, 30, true, true, true, false, false, false` and `getFrames`
declares 6 with defaults `true, true, true, false, false, false`; at each of these
positions the binding gives the same default, so a call without arguments passes the
same values for the declared parameters through either interface. -/
theorem binding_defaults_agree :
    noArgCall Kinect.Kinect =
      [.int 0, .int 1080, .bool false, .bool true, .int 30, .bool true, .bool true,
       .bool true, .bool false, .bool false, .bool false] ∧
    noArgCall Kinect.getFrames =
      [.bool true, .bool true, .bool true, .bool false, .bool false, .bool false] ∧
    (∀ i : Fin 11, defaultAt kinz.Kinect.init i = defaultAt Kinect.Kinect i) ∧
    (∀ i : Fin 6, defaultAt kinz.Kinect.get_frames i = defaultAt Kinect.getFrames i) ∧
    (noArgCall kinz.Kinect.init).take Kinect.Kinect.length = noArgCall Kinect.Kinect ∧
    (noArgCall kinz.Kinect.get_frames).take Kinect.getFrames.length =
      noArgCall Kinect.getFrames := by
  refine ⟨rfl, rfl, ?_, ?_, rfl, rfl⟩
  · decide
  · decide

/-! ## Batch operations -/

theorem processAll_eq {α β : Type} (f : α → β) (xs : List α) :
    processAll f xs = (xs.map f, xs.length) := by
  induction xs with
  | nil => rfl
  | cons x xs ih => simp [processAll, ih]

theorem mapBatch_accept {α β : Type} (valid : α → Bool) (f : α → β) (xs : List α)
    (h : ∀ x ∈ xs, valid x = true) :
    mapBatch valid f xs = { result := .ok (xs.map f), projections := xs.length } := by
  have hall : xs.all valid = true := by simpa using h
  simp [mapBatch, hall, processAll_eq]

theorem mapBatch_reject {α β : Type} (valid : α → Bool) (f : α → β) (xs : List α)
    (h : ∃ x ∈ xs, valid x = false) :
    mapBatch valid f xs = { result := .error MapperError.InvalidInputError, projections := 0 } := by
  have hall : ¬ (xs.all valid = true) := by
    simp only [List.all_eq_true, not_forall]
    obtain ⟨x, hx, hv⟩ := h
    exact ⟨x, hx, by simp [hv]⟩
  simp [mapBatch, hall]

theorem mapBatch_returns {α β : Type} (valid : α → Bool) (f : α → β) (xs : List α)
    (ys : List β) (h : (mapBatch valid f xs).result = .ok ys) : ys = xs.map f := by
  by_cases hall : xs.all valid = true
  · simp [mapBatch, hall, processAll_eq] at h
    exact h.symm
  · simp [mapBatch, hall] at h

theorem map_constant {α β : Type} (f : α → β) (xs : List α) (u : β)
    (hu : ∀ x ∈ xs, f x = u) : xs.map f = List.replicate xs.length u := by
  induction xs with
  | nil => rfl
  | cons x xs ih =>
    have hx : f x = u := hu x (List.mem_cons_self x xs)
    have hxs : ∀ y ∈ xs, f y = u := fun y hy => hu y (List.mem_cons_of_mem x hy)
    simp [List.replicate_succ, hx, ih hxs]

theorem mapBatch_preservesLength {α β : Type} (valid : α → Bool) (f : α → β) :
    PreservesLength valid f (mapBatch valid f) := by
  unfold PreservesLength
  intro xs
  refine ⟨?_, ?_, ?_, ?_⟩
  · intro ys h
    rw [mapBatch_returns valid f xs ys h]
    exact ⟨List.length_map _ _, fun i => by simp⟩
  · intro h
    exact ⟨xs.map f, by rw [mapBatch_accept valid f xs h], List.length_map _ _⟩
  · intro h
    subst h
    rfl
  · intro u h hu
    rw [mapBatch_accept valid f xs h]
    rw [map_constant f xs u hu]

theorem mapBatch_failsFast {α β : Type} (valid : α → Bool) (f : α → β) :
    FailsFast valid f (mapBatch valid f) := by
  unfold FailsFast
  intro xs
  constructor
  · intro h
    rw [mapBatch_reject valid f xs h]
    exact ⟨rfl, rfl⟩
  · intro h
    rw [mapBatch_accept valid f xs h]

theorem inBounds_iff (width height : Nat) (p : PixelCoord) :
    p.inBounds width height = true ↔ 0 ≤ p.x ∧ p.x < width ∧ 0 ≤ p.y ∧ p.y < height := by
  simp [PixelCoord.inBounds, and_assoc]

/-- C1: each of the six batch operations of the Coordinate Mapper returns, whenever it
returns, a sequence of the length of its input whose element `i` is the image of input
element `i`; it returns for every input of in-bounds pixels (for every input of 3D
points), the empty input and an input of unmappable elements included. -/
theorem batch_length_preserved (M : CameraModel) (K : Capture) (depth_reference : Bool) :
    PreservesLength (PixelCoord.inBounds (M.width Sensor.color) (M.height Sensor.color))
      (colorToDepthPixel M K) (map_coords_color_to_depth M K) ∧
    PreservesLength (PixelCoord.inBounds (M.width Sensor.depth) (M.height Sensor.depth))
      (depthToColorPixel M K) (map_coords_depth_to_color M K) ∧
    PreservesLength (PixelCoord.inBounds (M.width Sensor.color) (M.height Sensor.color))
      (pixelTo3D M K Sensor.color (referenceFrame depth_reference))
      (fun xs => map_coords_color_to_3D M K xs depth_reference) ∧
    PreservesLength (PixelCoord.inBounds (M.width Sensor.depth) (M.height Sensor.depth))
      (pixelTo3D M K Sensor.depth (referenceFrame depth_reference))
      (fun xs => map_coords_depth_to_3D M K xs depth_reference) ∧
    PreservesLength (fun _ => true)
      (threeDToPixel M Sensor.depth (referenceFrame depth_reference))
      (fun xs => map_coords_3d_to_depth M xs depth_reference) ∧
    PreservesLength (fun _ => true)
      (threeDToPixel M Sensor.color (referenceFrame depth_reference))
      (fun xs => map_coords_3d_to_color M xs depth_reference) :=
  ⟨mapBatch_preservesLength _ _, mapBatch_preservesLength _ _, mapBatch_preservesLength _ _,
   mapBatch_preservesLength _ _, mapBatch_preservesLength _ _, mapBatch_preservesLength _ _⟩

/-- Witness of C1: two color pixels under which no depth exists are both unmappable,
and the call returns two unmapped markers. -/
theorem batch_length_preserved_witness :
    (map_coords_color_to_depth pinholeExample captureExample [⟨0, 0⟩, ⟨3, 2⟩]).result =
      .ok [none, none] :=
  ((batch_length_preserved pinholeExample captureExample true).1 [⟨0, 0⟩, ⟨3, 2⟩]).2.2.2 none
    (by decide) (by decide)

/-- C5: a batch call on pixel coordinates fails as a whole with `InvalidInputError`,
with no projection computed, when some pixel is outside `[0,width) x [0,height)` of
its frame, which is the case when `x = width` or `y < 0`; a call on in-bounds pixels
never fails and reports each element by its own result, the unmapped marker included. -/
theorem out_of_bounds_fails_fast (M : CameraModel) (K : Capture) (depth_reference : Bool) :
    FailsFast (PixelCoord.inBounds (M.width Sensor.color) (M.height Sensor.color))
      (colorToDepthPixel M K) (map_coords_color_to_depth M K) ∧
    FailsFast (PixelCoord.inBounds (M.width Sensor.depth) (M.height Sensor.depth))
      (depthToColorPixel M K) (map_coords_depth_to_color M K) ∧
    FailsFast (PixelCoord.inBounds (M.width Sensor.color) (M.height Sensor.color))
      (pixelTo3D M K Sensor.color (referenceFrame depth_reference))
      (fun xs => map_coords_color_to_3D M K xs depth_reference) ∧
    FailsFast (PixelCoord.inBounds (M.width Sensor.depth) (M.height Sensor.depth))
      (pixelTo3D M K Sensor.depth (referenceFrame depth_reference))
      (fun xs => map_coords_depth_to_3D M K xs depth_reference) ∧
    (∀ (width height : Nat) (p : PixelCoord),
      p.inBounds width height = true ↔ 0 ≤ p.x ∧ p.x < width ∧ 0 ≤ p.y ∧ p.y < height) ∧
    (∀ (width height : Nat) (p : PixelCoord),
      p.x = width ∨ p.y < 0 → p.inBounds width height = false) := by
  refine ⟨mapBatch_failsFast _ _, mapBatch_failsFast _ _, mapBatch_failsFast _ _,
    mapBatch_failsFast _ _, inBounds_iff, ?_⟩
  intro width height p h
  rw [Bool.eq_false_iff, Ne, inBounds_iff]
  omega

/-- Witness of C5 on the 4 x 3 example: a depth pixel with `x = width` makes the call
fail with no projection computed, while the in-bounds zero-depth pixel `(1, 0)` is
returned as the invalid point. -/
theorem out_of_bounds_fails_fast_witness :
    ((map_coords_depth_to_3D pinholeExample captureExample [⟨0, 0⟩, ⟨4, 0⟩] true).result =
        .error MapperError.InvalidInputError ∧
      (map_coords_depth_to_3D pinholeExample captureExample [⟨0, 0⟩, ⟨4, 0⟩] true).projections
        = 0) ∧
    (map_coords_depth_to_3D pinholeExample captureExample [⟨0, 0⟩, ⟨1, 0⟩] true).result =
      .ok [⟨-500, -250, 1000⟩, Point3D.invalid] :=
  ⟨((out_of_bounds_fails_fast pinholeExample captureExample true).2.2.2.1
      [⟨0, 0⟩, ⟨4, 0⟩]).1 ⟨⟨4, 0⟩, by decide, by decide⟩,
   ((out_of_bounds_fails_fast pinholeExample captureExample true).2.2.2.1
      [⟨0, 0⟩, ⟨1, 0⟩]).2 (by decide)⟩

/-! ## Zero depth -/

theorem grid_index_lt (w h row col : Nat) (hr : row < h) (hc : col < w) :
    row * w + col < w * h := by
  have h1 : (row + 1) * w ≤ h * w := Nat.mul_le_mul_right w hr
  have e : (row + 1) * w = row * w + w := by ring
  have e2 : w * h = h * w := Nat.mul_comm _ _
  omega

theorem generate_point (M : CameraModel) (f : DepthFrame) (row col : Nat)
    (hr : row < f.height) (hc : col < f.width) :
    (generate M f).point row col =
      some (unproject M ⟨(col : Int), (row : Int)⟩ (f.sample row col) Sensor.depth) := by
  have hlt := grid_index_lt f.width f.height row col hr hc
  have hmod : (row * f.width + col) % f.width = col := by
    rw [Nat.add_comm, Nat.add_mul_mod_self_right, Nat.mod_eq_of_lt hc]
  have hdiv : (row * f.width + col) / f.width = row := by
    rw [Nat.add_comm, Nat.add_mul_div_right _ _ (by omega), Nat.div_eq_of_lt hc, Nat.zero_add]
  have hmodZ : ((row : Int) * f.width + col) % f.width = col := by exact_mod_cast hmod
  have hdivZ : ((row : Int) * f.width + col) / f.width = row := by exact_mod_cast hdiv
  simp [PointCloud.point, generate, hc, List.getElem?_range hlt, hmodZ, hdivZ,
    DepthFrame.sample]

/-- C2: for every sensor and every in-bounds pixel, `unproject` at depth 0 is the
invalid sentinel (a total function, it cannot fail); and the cloud generated from a
depth frame has one point per pixel and holds the invalid sentinel at every grid
position whose depth sample is 0. -/
theorem zero_depth_gives_sentinel (M : CameraModel) :
    (∀ (S : Sensor) (pixel : PixelCoord), pixel.inBounds (M.width S) (M.height S) = true →
      unproject M pixel 0 S = Point3D.invalid) ∧
    (∀ (f : DepthFrame) (row col : Nat), row < f.height → col < f.width →
      f.sample row col = 0 → (generate M f).point row col = some Point3D.invalid) ∧
    (∀ f : DepthFrame, (generate M f).points.length = f.width * f.height ∧
      (generate M f).width = f.width ∧ (generate M f).height = f.height) := by
  refine ⟨?_, ?_, ?_⟩
  · intro S pixel _
    simp [unproject]
  · intro f row col hr hc h0
    rw [generate_point M f row col hr hc, h0]
    simp [unproject]
  · intro f
    simp [generate]

/-- Witness of C2 on the 4 x 3 example frame, whose sample at row 0, column 2 is 0. -/
theorem zero_depth_gives_sentinel_witness :
    unproject pinholeExample ⟨2, 0⟩ 0 Sensor.depth = Point3D.invalid ∧
      (generate pinholeExample frameExample).point 0 2 = some Point3D.invalid :=
  ⟨(zero_depth_gives_sentinel pinholeExample).1 Sensor.depth ⟨2, 0⟩ (by decide),
   (zero_depth_gives_sentinel pinholeExample).2.1 frameExample 0 2 (by decide) (by decide)
     (by decide)⟩

/-! ## Export -/

theorem exportFrom_length (colors : Option (List Rgb)) (ps : List Point3D) (i : Nat) :
    (exportFrom colors i ps).length = (ps.filter Point3D.isValid).length := by
  induction ps generalizing i with
  | nil => rfl
  | cons p ps ih =>
    by_cases hp : p.isValid = true
    · simp [exportFrom, hp, ih]
    · simp [exportFrom, hp, ih]

theorem exportFrom_plain (ps : List Point3D) (i : Nat) :
    exportFrom none i ps = (ps.filter Point3D.isValid).map fun p => formatLine p none := by
  induction ps generalizing i with
  | nil => rfl
  | cons p ps ih =>
    by_cases hp : p.isValid = true
    · simp [exportFrom, hp, ih, colorAt]
    · simp [exportFrom, hp, ih]

/-- C7: for every point cloud, with or without colors, the file written by the export
holds exactly one line per valid point and none for an invalid sentinel, so its number
of lines is the number of valid points; without colors the lines are the `x y z` texts
of the valid points in grid order. -/
theorem export_one_line_per_valid_point (pointCloud : PointCloud)
    (colors : Option (List Rgb)) :
    (∃ lines, exportToFile true pointCloud colors = .ok lines ∧
      lines.length = (pointCloud.points.filter Point3D.isValid).length ∧
      lines.length = pointCloud.points.countP Point3D.isValid) ∧
    exportToFile true pointCloud none =
      .ok ((pointCloud.points.filter Point3D.isValid).map fun p => formatLine p none) := by
  refine ⟨⟨exportFrom colors 0 pointCloud.points, by simp [exportToFile], ?_, ?_⟩, ?_⟩
  · exact exportFrom_length colors pointCloud.points 0
  · rw [exportFrom_length, List.countP_eq_length_filter]
  · simp [exportToFile, exportFrom_plain]

/-- Scenario of C7: the cloud of two valid points and two invalid sentinels exports
exactly two lines. -/
theorem export_one_line_per_valid_point_witness :
    ∃ lines, exportToFile true cloudExample none = .ok lines ∧ lines.length = 2 :=
  match (export_one_line_per_valid_point cloudExample none).1 with
  | ⟨lines, h, _, hc⟩ => ⟨lines, h, hc.trans (by decide)⟩

end KinZ
